import Mathlib

/-!
Verification development for the DentalMart-Admin API client
(`src/lib/api.ts`).

The client is embedded shallowly:

* JavaScript/JSON runtime values are modelled by `JsVal`; the JS value
  `undefined` is modelled by `none : Option JsVal`.
* The browser world visible to this layer is `World`: the two
  `localStorage` entries (`adminToken`, `adminEmail`) and the value last
  assigned to `window.location.href` (`redirect`).
* Each HTTP call's transport outcome is an explicit input (`Transport`):
  either the `fetch` promise rejects (carrying the thrown value's
  `instanceof Error` status and its `message`), or a response with a
  status code arrives whose body either parses as JSON or fails to parse
  (in which case `response.json()` rejects with a `SyntaxError`).
* Exceptions are explicit: property access on `null`/`undefined` throws,
  modelled with `Except JsError`.  Every operation of the client is a
  total function `World → Transport → World × ApiResponse`, mirroring the
  source's `try`/`catch` structure.

JSON numbers are modelled as `Int` (the claims only depend on zero-ness
and decimal printing of integral values).
-/

/-- A thrown JavaScript value: whether it is an `instanceof Error`, and its
`message` property. -/
structure JsError where
  isErrorInstance : Bool
  message : String
deriving DecidableEq

/-- JSON/JS runtime values.  `undefined` is not a `JsVal`; it is modelled as
`none : Option JsVal` at use sites. -/
inductive JsVal where
  | null : JsVal
  | bool (b : Bool) : JsVal
  | num (n : Int) : JsVal
  | str (s : String) : JsVal
  | arr (elems : List JsVal) : JsVal
  | obj (fields : List (String × JsVal)) : JsVal

/-- JavaScript truthiness of a defined value: `null`, `false`, `0` and `""`
are falsy; arrays and objects are always truthy. -/
def JsVal.truthy : JsVal → Bool
  | .null => false
  | .bool b => b
  | .num n => n != 0
  | .str s => s != ""
  | .arr _ => true
  | .obj _ => true

/-- Truthiness of a possibly-`undefined` value (`undefined` is falsy). -/
def jsTruthy : Option JsVal → Bool
  | none => false
  | some v => v.truthy

/-- JavaScript `a || b` on possibly-`undefined` values. -/
def jsOr (a b : Option JsVal) : Option JsVal :=
  if jsTruthy a then a else b

/-- Property access `v.f` on a defined value: throws a `TypeError` on
`null`, yields the field on objects (`undefined` when absent), and yields
`undefined` on other primitives and arrays (built-in properties are not
modelled; the source only reads data fields). -/
def JsVal.getField : JsVal → String → Except JsError (Option JsVal)
  | .null, f => .error ⟨true, "Cannot read properties of null (reading " ++ f ++ ")"⟩
  | .obj fs, f => .ok (fs.lookup f)
  | _, _ => .ok none

/-- Property access `v.f` on a possibly-`undefined` value: throws on
`undefined` as well. -/
def jsGet (v : Option JsVal) (f : String) : Except JsError (Option JsVal) :=
  match v with
  | none => .error ⟨true, "Cannot read properties of undefined (reading " ++ f ++ ")"⟩
  | some j => j.getField f

/-- Optional chaining `v?.f`: yields `undefined` (never throws) when the
receiver is `null`/`undefined`. -/
def jsGetOpt (v : Option JsVal) (f : String) : Option JsVal :=
  match v with
  | none => none
  | some .null => none
  | some j =>
    match j.getField f with
    | .ok r => r
    | .error _ => none

/-- JavaScript `String(v)` coercion, as used by `localStorage.setItem`. -/
def JsVal.toJsString : JsVal → String
  | .null => "null"
  | .bool b => if b then "true" else "false"
  | .num n => toString n
  | .str s => s
  | .arr l => String.intercalate "," (l.attach.map fun x =>
      match x with
      | ⟨.null, _⟩ => ""
      | ⟨v, _⟩ => v.toJsString)
  | .obj _ => "[object Object]"

/-- `String(v)` for a possibly-`undefined` value. -/
def jsToString : Option JsVal → String
  | none => "undefined"
  | some v => v.toJsString

/-- The two `localStorage` entries used by the client.  `none` means the
key is absent. -/
structure Storage where
  adminToken : Option String
  adminEmail : Option String
deriving DecidableEq

/-- Browser state visible to the client: persisted storage plus the value
last assigned to `window.location.href` (`none` if never assigned). -/
structure World where
  storage : Storage
  redirect : Option String
deriving DecidableEq

/-- `localStorage.removeItem` for both keys followed by
`window.location.href = '/login'` — the 401 branch and its redirect. -/
def clearSessionAndRedirect (_w : World) : World :=
  { storage := { adminToken := none, adminEmail := none }, redirect := some "/login" }

/-- Outcome of `response.json()`. -/
inductive BodyParse where
  | json (j : JsVal) : BodyParse
  | malformed (msg : String) : BodyParse

/-- Outcome of one `fetch`: either the promise rejects (transport failure)
or a response with a status code arrives. -/
inductive Transport where
  | fail (e : JsError) : Transport
  | resp (status : Nat) (body : BodyParse) : Transport

/-- `response.ok`: status in the range 200–299. -/
def statusOk (s : Nat) : Bool :=
  200 ≤ s && s < 300

/-- The normalized result shape returned by every operation
(`ApiResponse<T>` in the source).  Each field is `none` when the
corresponding property is absent/`undefined`. -/
structure ApiResponse where
  success : Bool
  data : Option JsVal := none
  message : Option JsVal := none
  error : Option JsVal := none
  errors : Option JsVal := none

/-- The envelope built by every `catch (error)` block of the client:
`message` echoes `error.message` when the thrown value is an `Error`
instance, else the string `'Network error'`; `error` is always the fixed
string `'Network error'`. -/
def catchEnvelope (e : JsError) : ApiResponse :=
  { success := false
    message := some (.str (if e.isErrorInstance then e.message else "Network error"))
    error := some (.str "Network error") }

/-- The request executor `apiRequest` (src/lib/api.ts:30-81): one
authenticated call.  Returns the resulting browser world and the
envelope.  Header construction is not modelled (no claim observes it);
everything from `response.json()` on is modelled exactly, including which
property accesses can throw and the fact that a body that fails to parse
jumps to the `catch` block before the 401 branch is reached. -/
def apiRequest (w : World) (t : Transport) : World × ApiResponse :=
  match t with
  | .fail e => (w, catchEnvelope e)
  | .resp _ (.malformed m) => (w, catchEnvelope ⟨true, m⟩)
  | .resp status (.json data) =>
    if statusOk status then
      match data.getField "data" with
      | .error e => (w, catchEnvelope e)
      | .ok d =>
        match data.getField "message" with
        | .error e => (w, catchEnvelope e)
        | .ok m =>
          (w, { success := true, data := jsOr d (some data), message := m })
    else
      let w' := if status == 401 then clearSessionAndRedirect w else w
      match data.getField "message" with
      | .error e => (w', catchEnvelope e)
      | .ok m =>
        match data.getField "error" with
        | .error e => (w', catchEnvelope e)
        | .ok er =>
          match data.getField "errors" with
          | .error e => (w', catchEnvelope e)
          | .ok ers =>
            (w', { success := false
                   message := jsOr m (jsOr er (some (.str "Request failed")))
                   error := er
                   errors := ers })

/-- The build-time configuration consulted for base-URL resolution:
`import.meta.env.PROD` and `import.meta.env.VITE_API_URL` (absent or a
string). -/
structure BuildConfig where
  prod : Bool
  viteApiUrl : Option String
deriving DecidableEq

/-- JavaScript `v || fallback` on an environment string (absent or empty
means fallback). -/
def jsStrOr (v : Option String) (fallback : String) : String :=
  match v with
  | none => fallback
  | some s => if s = "" then fallback else s

/-- The module-level `API_URL` constant (src/lib/api.ts:8-10): in
production builds the env value or the empty string (same-origin proxy),
otherwise the env value or the local fallback. -/
def API_URL (c : BuildConfig) : String :=
  if c.prod then jsStrOr c.viteApiUrl ""
  else jsStrOr c.viteApiUrl "http://localhost:3000"

/-- The URL `apiRequest` passes to `fetch` for a given endpoint. -/
def apiRequestUrl (c : BuildConfig) (endpoint : String) : String :=
  API_URL c ++ endpoint

/-- JavaScript `!!v` on a storage read (`null` and `""` are falsy). -/
def jsStrTruthy : Option String → Bool
  | none => false
  | some s => s != ""

namespace adminAuthApi

/-- The base URL shadowed inside `login` (src/lib/api.ts:99): the env
value or the local fallback, with no production branch. -/
def loginBaseUrl (c : BuildConfig) : String :=
  jsStrOr c.viteApiUrl "http://localhost:3000"

/-- The URL `login` passes to `fetch`. -/
def loginUrl (c : BuildConfig) : String :=
  loginBaseUrl c ++ "/api/admin/auth/login"

/-- The failure envelope branch of `login` (`!res.ok || !data.success`):
`message: data.message || 'Login failed', error: data.error`, with each
property access able to throw into the `catch`. -/
def loginFailureResult (w : World) (data : JsVal) : World × ApiResponse :=
  match data.getField "message" with
  | .error e => (w, catchEnvelope e)
  | .ok m =>
    match data.getField "error" with
    | .error e => (w, catchEnvelope e)
    | .ok er =>
      (w, { success := false, message := jsOr m (some (.str "Login failed")), error := er })

/-- `adminAuthApi.login` (src/lib/api.ts:97-134).  The credentials only
determine the request body, which does not influence the modelled
behaviour, so they are omitted.  Mirrors the source exactly from
`res.json()` on: the short-circuit in `!res.ok || !data.success`, the
guarded storage writes (`adminToken` is written first; the subsequent
`data.data.admin.email` access may throw, reaching the `catch` with the
token already persisted), and the final success envelope with
`data: data.data`. -/
def login (w : World) (t : Transport) : World × ApiResponse :=
  match t with
  | .fail e => (w, catchEnvelope e)
  | .resp _ (.malformed m) => (w, catchEnvelope ⟨true, m⟩)
  | .resp status (.json data) =>
    if statusOk status then
      match data.getField "success" with
      | .error e => (w, catchEnvelope e)
      | .ok succ =>
        if jsTruthy succ then
          match data.getField "data" with
          | .error e => (w, catchEnvelope e)
          | .ok dd =>
            let tok := jsGetOpt dd "token"
            if jsTruthy tok then
              let w1 : World := { w with storage := { w.storage with adminToken := some (jsToString tok) } }
              match jsGet dd "admin" with
              | .error e => (w1, catchEnvelope e)
              | .ok admin =>
                match jsGet admin "email" with
                | .error e => (w1, catchEnvelope e)
                | .ok em =>
                  let w2 : World := { w1 with storage := { w1.storage with adminEmail := some (jsToString em) } }
                  match data.getField "message" with
                  | .error e => (w2, catchEnvelope e)
                  | .ok m => (w2, { success := true, data := dd, message := m })
            else
              match data.getField "message" with
              | .error e => (w, catchEnvelope e)
              | .ok m => (w, { success := true, data := dd, message := m })
        else
          loginFailureResult w data
    else
      loginFailureResult w data

/-- `adminAuthApi.me` (src/lib/api.ts:139-141): a plain `apiRequest`. -/
def me (w : World) (t : Transport) : World × ApiResponse :=
  apiRequest w t

/-- `adminAuthApi.logout` (src/lib/api.ts:146-150): removes both storage
entries locally and returns `{ success: true }` with no server call. -/
def logout (w : World) : World × ApiResponse :=
  ({ w with storage := { adminToken := none, adminEmail := none } }, { success := true })

/-- `adminAuthApi.isAuthenticated` (src/lib/api.ts:155-157):
`!!getAdminToken()`. -/
def isAuthenticated (w : World) : Bool :=
  jsStrTruthy w.storage.adminToken

end adminAuthApi

namespace uploadApi

/-- The shared response handling of `uploadApi.uploadImage`
(src/lib/api.ts:324-365) and `uploadApi.uploadImages`
(src/lib/api.ts:370-413); the two bodies are identical after `fetch`
apart from the endpoint.  Like `apiRequest`, but the success envelope is
`data: data.data` with no whole-body fallback, the failure message
fallback is `'Upload failed'`, and no `errors` field is forwarded. -/
def uploadRequest (w : World) (t : Transport) : World × ApiResponse :=
  match t with
  | .fail e => (w, catchEnvelope e)
  | .resp _ (.malformed m) => (w, catchEnvelope ⟨true, m⟩)
  | .resp status (.json data) =>
    if statusOk status then
      match data.getField "data" with
      | .error e => (w, catchEnvelope e)
      | .ok dd =>
        match data.getField "message" with
        | .error e => (w, catchEnvelope e)
        | .ok m => (w, { success := true, data := dd, message := m })
    else
      let w' := if status == 401 then clearSessionAndRedirect w else w
      match data.getField "message" with
      | .error e => (w', catchEnvelope e)
      | .ok m =>
        match data.getField "error" with
        | .error e => (w', catchEnvelope e)
        | .ok er =>
          (w', { success := false, message := jsOr m (some (.str "Upload failed")), error := er })

/-- `uploadApi.uploadImage`: single-file upload (the `File` argument only
feeds the form data and is omitted). -/
def uploadImage (w : World) (t : Transport) : World × ApiResponse :=
  uploadRequest w t

/-- `uploadApi.uploadImages`: multi-file upload. -/
def uploadImages (w : World) (t : Transport) : World × ApiResponse :=
  uploadRequest w t

/-- `uploadApi.deleteImage` (src/lib/api.ts:418-422): a plain
`apiRequest`. -/
def deleteImage (w : World) (t : Transport) : World × ApiResponse :=
  apiRequest w t

end uploadApi

/-- Hexadecimal digit characters used by percent-encoding. -/
def hexDigit (n : Nat) : Char :=
  "0123456789ABCDEF".data.getD n '0'

/-- Characters serialized verbatim by the `application/x-www-form-urlencoded`
serializer used by `URLSearchParams.toString()`: ASCII alphanumerics and
`*`, `-`, `.`, `_`. -/
def formSafe (c : Char) : Bool :=
  c.isAlphanum || c = '*' || c = '-' || c = '.' || c = '_'

/-- One character of `URLSearchParams` serialization: safe characters kept,
space becomes `+`, everything else percent-encoded byte-wise (UTF-8). -/
def urlencodeChar (c : Char) : List Char :=
  if formSafe c then [c]
  else if c = ' ' then ['+']
  else (String.utf8EncodeChar c).flatMap fun b =>
    ['%', hexDigit (b.toNat / 16), hexDigit (b.toNat % 16)]

/-- `URLSearchParams` encoding of one name or value. -/
def urlencode (s : String) : List Char :=
  s.data.flatMap urlencodeChar

/-- `URLSearchParams.toString()` on already-encoded pairs: `k=v` segments
joined with `&`. -/
def serializePairs : List (List Char × List Char) → List Char
  | [] => []
  | kv :: rest =>
    kv.1 ++ '=' :: kv.2 ++
      (match rest with
       | [] => []
       | _ :: _ => '&' :: serializePairs rest)

/-- `URLSearchParams.toString()` on appended (name, value) pairs. -/
def queryChars (pairs : List (String × String)) : List Char :=
  serializePairs (pairs.map fun kv => (urlencode kv.1, urlencode kv.2))

/-- The optional parameter object of `productsApi.getProducts`
(src/lib/api.ts:223-231); `none` per field means the property is absent
(a missing `params` object behaves like all fields absent). -/
structure ProductsParams where
  page : Option Int := none
  limit : Option Int := none
  search : Option String := none
  category : Option String := none
  status : Option String := none
  sortBy : Option String := none
  sortOrder : Option String := none
deriving DecidableEq

/-- The optional parameter object of `ordersApi.getOrders`
(src/lib/api.ts:513-522). -/
structure OrdersParams where
  page : Option Int := none
  limit : Option Int := none
  status : Option String := none
  search : Option String := none
  sortBy : Option String := none
  sortOrder : Option String := none
  startDate : Option String := none
  endDate : Option String := none
deriving DecidableEq

/-- `if (params?.k) searchParams.append(k, v.toString())` for a numeric
field: appended only when present and truthy (nonzero). -/
def numEntry (k : String) (v : Option Int) : List (String × String) :=
  match v with
  | none => []
  | some n => if n = 0 then [] else [(k, toString n)]

/-- `if (params?.k) searchParams.append(k, v)` for a string field:
appended only when present and truthy (nonempty). -/
def strEntry (k : String) (v : Option String) : List (String × String) :=
  match v with
  | none => []
  | some s => if s = "" then [] else [(k, s)]

namespace productsApi

/-- The (name, value) pairs `getProducts` appends, in source order. -/
def getProductsPairs (p : ProductsParams) : List (String × String) :=
  numEntry "page" p.page ++ numEntry "limit" p.limit ++
    strEntry "search" p.search ++ strEntry "category" p.category ++
    strEntry "status" p.status ++ strEntry "sortBy" p.sortBy ++
    strEntry "sortOrder" p.sortOrder

/-- The serialized query string of `getProducts`, as characters. -/
def getProductsQueryChars (p : ProductsParams) : List Char :=
  queryChars (getProductsPairs p)

/-- The endpoint `getProducts` passes to `apiRequest`: the base path, plus
`?` and the query string only when the latter is nonempty. -/
def getProductsEndpoint (p : ProductsParams) : String :=
  "/api/admin/products" ++
    (if getProductsQueryChars p = [] then "" else "?" ++ String.mk (getProductsQueryChars p))

/-- `productsApi.getProducts`: response handling is `apiRequest`'s. -/
def getProducts (_p : ProductsParams) (w : World) (t : Transport) : World × ApiResponse :=
  apiRequest w t

/-- `productsApi.getProduct`: a plain `apiRequest`. -/
def getProduct (w : World) (t : Transport) : World × ApiResponse :=
  apiRequest w t

/-- `productsApi.createProduct`: a plain `apiRequest`. -/
def createProduct (w : World) (t : Transport) : World × ApiResponse :=
  apiRequest w t

/-- `productsApi.updateProduct`: a plain `apiRequest`. -/
def updateProduct (w : World) (t : Transport) : World × ApiResponse :=
  apiRequest w t

/-- `productsApi.updatePricing`: a plain `apiRequest`. -/
def updatePricing (w : World) (t : Transport) : World × ApiResponse :=
  apiRequest w t

/-- `productsApi.deleteProduct`: a plain `apiRequest`. -/
def deleteProduct (w : World) (t : Transport) : World × ApiResponse :=
  apiRequest w t

/-- `productsApi.getCategories`: a plain `apiRequest`. -/
def getCategories (w : World) (t : Transport) : World × ApiResponse :=
  apiRequest w t

end productsApi

namespace ordersApi

/-- The (name, value) pairs `getOrders` appends, in source order. -/
def getOrdersPairs (p : OrdersParams) : List (String × String) :=
  numEntry "page" p.page ++ numEntry "limit" p.limit ++
    strEntry "status" p.status ++ strEntry "search" p.search ++
    strEntry "sortBy" p.sortBy ++ strEntry "sortOrder" p.sortOrder ++
    strEntry "startDate" p.startDate ++ strEntry "endDate" p.endDate

/-- The serialized query string of `getOrders`, as characters. -/
def getOrdersQueryChars (p : OrdersParams) : List Char :=
  queryChars (getOrdersPairs p)

/-- The endpoint `getOrders` passes to `apiRequest`. -/
def getOrdersEndpoint (p : OrdersParams) : String :=
  "/api/admin/orders" ++
    (if getOrdersQueryChars p = [] then "" else "?" ++ String.mk (getOrdersQueryChars p))

/-- `ordersApi.getOrders`: response handling is `apiRequest`'s. -/
def getOrders (_p : OrdersParams) (w : World) (t : Transport) : World × ApiResponse :=
  apiRequest w t

/-- `ordersApi.getStats`: a plain `apiRequest`. -/
def getStats (w : World) (t : Transport) : World × ApiResponse :=
  apiRequest w t

/-- `ordersApi.getOrder`: a plain `apiRequest`. -/
def getOrder (w : World) (t : Transport) : World × ApiResponse :=
  apiRequest w t

/-- `ordersApi.updateStatus`: a plain `apiRequest`. -/
def updateStatus (w : World) (t : Transport) : World × ApiResponse :=
  apiRequest w t

/-- `ordersApi.getUserOrders`: a plain `apiRequest`. -/
def getUserOrders (w : World) (t : Transport) : World × ApiResponse :=
  apiRequest w t

end ordersApi

/-- The field names of the `getProducts` parameter object. -/
def productsFieldNames : List String :=
  ["page", "limit", "search", "category", "status", "sortBy", "sortOrder"]

/-- The field names of the `getOrders` parameter object. -/
def ordersFieldNames : List String :=
  ["page", "limit", "status", "search", "sortBy", "sortOrder", "startDate", "endDate"]

/-- The spec's success envelope shape: success flag set and a data payload
present. -/
def isSuccessWithData (r : ApiResponse) : Prop :=
  r.success = true ∧ r.data.isSome = true

/-- The spec's failure envelope shape: success flag cleared and a message
present. -/
def isFailureWithMessage (r : ApiResponse) : Prop :=
  r.success = false ∧ r.message.isSome = true

/-! ### Query-string infrastructure

The form-urlencoded serializer never emits a literal `=` or `&` inside an
encoded name or value, so every `X=` substring of a serialized query
pins `X` down as a suffix of one of the appended parameter names. -/

lemma hexDigit_safe (n : Nat) : hexDigit n ≠ '=' ∧ hexDigit n ≠ '&' := by
  have hg : hexDigit n = ("0123456789ABCDEF".data.get? n).getD '0' := rfl
  rcases h : "0123456789ABCDEF".data.get? n with _ | c
  · rw [hg, h]
    exact ⟨by decide, by decide⟩
  · have hc := List.get?_mem h
    rw [hg, h]
    simp only [Option.getD_some]
    exact ⟨by fin_cases hc <;> decide, by fin_cases hc <;> decide⟩

lemma urlencodeChar_safe (c : Char) : '=' ∉ urlencodeChar c ∧ '&' ∉ urlencodeChar c := by
  unfold urlencodeChar
  split_ifs with h1 h2
  · refine ⟨fun hm => ?_, fun hm => ?_⟩ <;> rw [List.mem_singleton] at hm <;>
      rw [← hm] at h1 <;> exact absurd h1 (by decide)
  · exact ⟨by decide, by decide⟩
  · refine ⟨fun hm => ?_, fun hm => ?_⟩ <;> rw [List.mem_flatMap] at hm <;>
      obtain ⟨b, -, hb⟩ := hm <;> simp only [List.mem_cons, List.not_mem_nil, or_false] at hb
    · rcases hb with hb | hb | hb
      · exact absurd hb.symm (by decide)
      · exact (hexDigit_safe _).1 hb.symm
      · exact (hexDigit_safe _).1 hb.symm
    · rcases hb with hb | hb | hb
      · exact absurd hb.symm (by decide)
      · exact (hexDigit_safe _).2 hb.symm
      · exact (hexDigit_safe _).2 hb.symm

lemma urlencode_safe (s : String) : '=' ∉ urlencode s ∧ '&' ∉ urlencode s := by
  unfold urlencode
  refine ⟨fun hm => ?_, fun hm => ?_⟩ <;> rw [List.mem_flatMap] at hm <;>
    obtain ⟨c, -, hc⟩ := hm
  · exact (urlencodeChar_safe c).1 hc
  · exact (urlencodeChar_safe c).2 hc

lemma suffixOfSuffixLenLe {α : Type _} {l₁ l₂ l : List α}
    (h₁ : l₁ <:+ l) (h₂ : l₂ <:+ l) (hlen : l₁.length ≤ l₂.length) : l₁ <:+ l₂ := by
  obtain ⟨a, ha⟩ := h₁
  obtain ⟨b, hb⟩ := h₂
  have hab : a ++ l₁ = b ++ l₂ := ha.trans hb.symm
  rcases List.append_eq_append_iff.mp hab with ⟨a', -, h₂'⟩ | ⟨c', -, h₂'⟩
  · have hl : a'.length = 0 := by
      have := congrArg List.length h₂'
      simp [List.length_append] at this
      omega
    rw [List.length_eq_zero.mp hl, List.nil_append] at h₂'
    rw [h₂']
  · exact ⟨c', h₂'.symm⟩

lemma serializePairs_eq_split
    (ps : List (List Char × List Char))
    (hsafe : ∀ kv ∈ ps, '=' ∉ kv.1 ∧ '=' ∉ kv.2)
    (s t : List Char)
    (h : serializePairs ps = s ++ '=' :: t) :
    ∃ kv ∈ ps, s = kv.1 ∨ ∃ s', s = s' ++ '&' :: kv.1 := by
  induction ps generalizing s t with
  | nil => simp [serializePairs] at h
  | cons kv rest ih =>
    have hk1 : '=' ∉ kv.1 := (hsafe kv (List.mem_cons_self kv rest)).1
    have hk2 : '=' ∉ kv.2 := (hsafe kv (List.mem_cons_self kv rest)).2
    rcases rest with _ | ⟨r, rs⟩
    · have h' : kv.1 ++ '=' :: kv.2 = s ++ '=' :: t := by
        simpa [serializePairs] using h
      rcases List.append_eq_append_iff.mp h' with ⟨a', hs, hrest⟩ | ⟨c', hkk, hrest⟩
      · rcases a' with _ | ⟨x, a''⟩
        · exact ⟨kv, List.mem_cons_self kv [], Or.inl (by simpa using hs)⟩
        · rw [List.cons_append, List.cons.injEq] at hrest
          obtain ⟨hx, hres2⟩ := hrest
          exact absurd (hres2 ▸ List.mem_append_right a'' (List.mem_cons_self '=' t)) hk2
      · rcases c' with _ | ⟨x, c''⟩
        · exact ⟨kv, List.mem_cons_self kv [], Or.inl (by simpa using hkk.symm)⟩
        · rw [List.cons_append, List.cons.injEq] at hrest
          obtain ⟨hx, -⟩ := hrest
          rw [← hx] at hkk
          exact absurd (hkk ▸ List.mem_append_right s (List.mem_cons_self '=' c'')) hk1
    · have h' : kv.1 ++ '=' :: (kv.2 ++ '&' :: serializePairs (r :: rs)) = s ++ '=' :: t := by
        simpa [serializePairs] using h
      rcases List.append_eq_append_iff.mp h' with ⟨a', hs, hrest⟩ | ⟨c', hkk, hrest⟩
      · rcases a' with _ | ⟨x, a''⟩
        · exact ⟨kv, List.mem_cons_self _ _, Or.inl (by simpa using hs)⟩
        · rw [List.cons_append, List.cons.injEq] at hrest
          obtain ⟨hx, hres2⟩ := hrest
          rw [← hx] at hs
          rcases List.append_eq_append_iff.mp hres2 with ⟨b', hb, htl⟩ | ⟨c', hv, hrest2⟩
          · rcases b' with _ | ⟨y, b''⟩
            · rw [List.nil_append, List.cons.injEq] at htl
              exact absurd htl.1 (by decide)
            · rw [List.cons_append, List.cons.injEq] at htl
              obtain ⟨hy, hsp⟩ := htl
              rw [← hy] at hb
              obtain ⟨kv', hkv', hcase⟩ :=
                ih (fun q hq => hsafe q (List.mem_cons_of_mem kv hq)) b'' t hsp
              refine ⟨kv', List.mem_cons_of_mem kv hkv', Or.inr ?_⟩
              rcases hcase with hb'' | ⟨s₂, hs₂⟩
              · exact ⟨kv.1 ++ '=' :: kv.2, by rw [hs, hb, hb'']; simp⟩
              · exact ⟨kv.1 ++ '=' :: kv.2 ++ '&' :: s₂, by rw [hs, hb, hs₂]; simp⟩
          · rcases c' with _ | ⟨z, c''⟩
            · rw [List.nil_append] at hrest2
              have hcontra := congrArg (fun l => l.head?) hrest2
              simp at hcontra
            · rw [List.cons_append, List.cons.injEq] at hrest2
              obtain ⟨hz, -⟩ := hrest2
              rw [← hz] at hv
              exact absurd (hv ▸ List.mem_append_right a'' (List.mem_cons_self '=' c'')) hk2
      · rcases c' with _ | ⟨x, c''⟩
        · exact ⟨kv, List.mem_cons_self _ _, Or.inl (by simpa using hkk.symm)⟩
        · rw [List.cons_append, List.cons.injEq] at hrest
          obtain ⟨hx, -⟩ := hrest
          rw [← hx] at hkk
          exact absurd (hkk ▸ List.mem_append_right s (List.mem_cons_self '=' c'')) hk1

/-- Every occurrence of a pattern `X=` (with `&`-free `X`) in a serialized
query pins `X` down as a suffix of one of the encoded parameter names. -/
lemma queryInfixKeySuffix
    (ps : List (List Char × List Char))
    (hsafe : ∀ kv ∈ ps, ('=' ∉ kv.1 ∧ '&' ∉ kv.1) ∧ '=' ∉ kv.2)
    (X : List Char) (hX : '&' ∉ X)
    (h : (X ++ ['=']) <:+: serializePairs ps) :
    ∃ kv ∈ ps, X <:+ kv.1 := by
  obtain ⟨u, v, huv⟩ := h
  have h' : serializePairs ps = (u ++ X) ++ '=' :: v := by
    rw [← huv]; simp
  obtain ⟨kv, hkv, hcase⟩ :=
    serializePairs_eq_split ps (fun q hq => ⟨(hsafe q hq).1.1, (hsafe q hq).2⟩) _ _ h'
  refine ⟨kv, hkv, ?_⟩
  rcases hcase with heq | ⟨s', hs'⟩
  · rw [← heq]
    exact List.suffix_append u X
  · by_cases hlen : X.length ≤ kv.1.length
    · have hx : X <:+ s' ++ '&' :: kv.1 := by
        rw [← hs']; exact List.suffix_append u X
      have hk : kv.1 <:+ s' ++ '&' :: kv.1 := ⟨s' ++ ['&'], by simp⟩
      exact suffixOfSuffixLenLe hx hk hlen
    · exfalso
      have hx : X <:+ s' ++ '&' :: kv.1 := by
        rw [← hs']; exact List.suffix_append u X
      have hk : ('&' :: kv.1) <:+ s' ++ '&' :: kv.1 := ⟨s', rfl⟩
      have hsub : ('&' :: kv.1) <:+ X := suffixOfSuffixLenLe hk hx (by simp; omega)
      obtain ⟨q, hq⟩ := hsub
      apply hX
      rw [← hq]
      exact List.mem_append_right q (List.mem_cons_self _ _)

/-- If a field name `X` is never among the appended parameter names, and the
appended names are drawn from a list of names none of which is a proper
suffix of another, then `X=` does not occur in the serialized query. -/
lemma queryChars_unset_key_absent (pairs : List (String × String)) (names : List String)
    (X : String)
    (hXamp : '&' ∉ X.data)
    (hkeys : ∀ kv ∈ pairs, kv.1 ∈ names ∧ kv.1 ≠ X)
    (henc : ∀ n ∈ names, urlencode n = n.data)
    (hsufeq : ∀ a ∈ names, ∀ b ∈ names, a.data <:+ b.data → a = b)
    (hXin : X ∈ names) :
    ¬ (X.data ++ ['=']) <:+: queryChars pairs := by
  intro h
  unfold queryChars at h
  have hsafe : ∀ q ∈ pairs.map (fun kv => (urlencode kv.1, urlencode kv.2)),
      ('=' ∉ q.1 ∧ '&' ∉ q.1) ∧ '=' ∉ q.2 := by
    intro q hq
    rw [List.mem_map] at hq
    obtain ⟨kv, -, rfl⟩ := hq
    exact ⟨⟨(urlencode_safe kv.1).1, (urlencode_safe kv.1).2⟩, (urlencode_safe kv.2).1⟩
  obtain ⟨q, hq, hsuf⟩ := queryInfixKeySuffix _ hsafe X.data hXamp h
  rw [List.mem_map] at hq
  obtain ⟨kv, hkvmem, rfl⟩ := hq
  have hk := hkeys kv hkvmem
  rw [henc kv.1 hk.1] at hsuf
  exact hk.2 (hsufeq X hXin kv.1 hk.1 hsuf).symm

lemma numEntry_key {kv : String × String} {k : String} {v : Option Int}
    (h : kv ∈ numEntry k v) : kv.1 = k ∧ v ≠ none := by
  cases v with
  | none => simp [numEntry] at h
  | some n =>
    by_cases hn : n = 0
    · simp [numEntry, hn] at h
    · simp only [numEntry, if_neg hn, List.mem_singleton] at h
      exact ⟨by rw [h], by simp⟩

lemma strEntry_key {kv : String × String} {k : String} {v : Option String}
    (h : kv ∈ strEntry k v) : kv.1 = k ∧ v ≠ none := by
  cases v with
  | none => simp [strEntry] at h
  | some s =>
    by_cases hs : s = ""
    · simp [strEntry, hs] at h
    · simp only [strEntry, if_neg hs, List.mem_singleton] at h
      exact ⟨by rw [h], by simp⟩

lemma getProductsPairs_key (p : ProductsParams) (kv : String × String)
    (h : kv ∈ productsApi.getProductsPairs p) :
    (kv.1 = "page" ∧ p.page ≠ none) ∨ (kv.1 = "limit" ∧ p.limit ≠ none) ∨
    (kv.1 = "search" ∧ p.search ≠ none) ∨ (kv.1 = "category" ∧ p.category ≠ none) ∨
    (kv.1 = "status" ∧ p.status ≠ none) ∨ (kv.1 = "sortBy" ∧ p.sortBy ≠ none) ∨
    (kv.1 = "sortOrder" ∧ p.sortOrder ≠ none) := by
  unfold productsApi.getProductsPairs at h
  simp only [List.mem_append] at h
  rcases h with ((((((h | h) | h) | h) | h) | h) | h)
  · exact Or.inl (numEntry_key h)
  · exact Or.inr (Or.inl (numEntry_key h))
  · exact Or.inr (Or.inr (Or.inl (strEntry_key h)))
  · exact Or.inr (Or.inr (Or.inr (Or.inl (strEntry_key h))))
  · exact Or.inr (Or.inr (Or.inr (Or.inr (Or.inl (strEntry_key h)))))
  · exact Or.inr (Or.inr (Or.inr (Or.inr (Or.inr (Or.inl (strEntry_key h))))))
  · exact Or.inr (Or.inr (Or.inr (Or.inr (Or.inr (Or.inr (strEntry_key h))))))

lemma getOrdersPairs_key (p : OrdersParams) (kv : String × String)
    (h : kv ∈ ordersApi.getOrdersPairs p) :
    (kv.1 = "page" ∧ p.page ≠ none) ∨ (kv.1 = "limit" ∧ p.limit ≠ none) ∨
    (kv.1 = "status" ∧ p.status ≠ none) ∨ (kv.1 = "search" ∧ p.search ≠ none) ∨
    (kv.1 = "sortBy" ∧ p.sortBy ≠ none) ∨ (kv.1 = "sortOrder" ∧ p.sortOrder ≠ none) ∨
    (kv.1 = "startDate" ∧ p.startDate ≠ none) ∨ (kv.1 = "endDate" ∧ p.endDate ≠ none) := by
  unfold ordersApi.getOrdersPairs at h
  simp only [List.mem_append] at h
  rcases h with (((((((h | h) | h) | h) | h) | h) | h) | h)
  · exact Or.inl (numEntry_key h)
  · exact Or.inr (Or.inl (numEntry_key h))
  · exact Or.inr (Or.inr (Or.inl (strEntry_key h)))
  · exact Or.inr (Or.inr (Or.inr (Or.inl (strEntry_key h))))
  · exact Or.inr (Or.inr (Or.inr (Or.inr (Or.inl (strEntry_key h)))))
  · exact Or.inr (Or.inr (Or.inr (Or.inr (Or.inr (Or.inl (strEntry_key h))))))
  · exact Or.inr (Or.inr (Or.inr (Or.inr (Or.inr (Or.inr (Or.inl (strEntry_key h)))))))
  · exact Or.inr (Or.inr (Or.inr (Or.inr (Or.inr (Or.inr (Or.inr (strEntry_key h)))))))

/-- Specialization of `queryChars_unset_key_absent` to `getProducts`. -/
lemma productsUnsetAbsent (p : ProductsParams) (X : String)
    (hXin : X ∈ productsFieldNames)
    (hnot : ∀ kv ∈ productsApi.getProductsPairs p, kv.1 ≠ X) :
    ¬ (X.data ++ ['=']) <:+: productsApi.getProductsQueryChars p := by
  apply queryChars_unset_key_absent _ productsFieldNames X
  · fin_cases hXin <;> decide
  · intro kv hkv
    refine ⟨?_, hnot kv hkv⟩
    rcases getProductsPairs_key p kv hkv with h | h | h | h | h | h | h <;> rw [h.1] <;> decide
  · decide
  · decide
  · exact hXin

/-- Specialization of `queryChars_unset_key_absent` to `getOrders`. -/
lemma ordersUnsetAbsent (p : OrdersParams) (X : String)
    (hXin : X ∈ ordersFieldNames)
    (hnot : ∀ kv ∈ ordersApi.getOrdersPairs p, kv.1 ≠ X) :
    ¬ (X.data ++ ['=']) <:+: ordersApi.getOrdersQueryChars p := by
  apply queryChars_unset_key_absent _ ordersFieldNames X
  · fin_cases hXin <;> decide
  · intro kv hkv
    refine ⟨?_, hnot kv hkv⟩
    rcases getOrdersPairs_key p kv hkv with h | h | h | h | h | h | h | h <;> rw [h.1] <;> decide
  · decide
  · decide
  · exact hXin

/-- **C8** — For every parameter object passed to a list operation
(`getProducts`, `getOrders`), any field left unset is absent from the
constructed query string: the serialized query never contains the
substring `X=` for an unset field `X`, and a parameter object with no set
fields yields a path with no query string at all. -/
theorem claim_C8_list_params_unset_absent (p : ProductsParams) (q : OrdersParams) :
    ((p.page = none → ¬ ("page".data ++ ['=']) <:+: productsApi.getProductsQueryChars p) ∧
     (p.limit = none → ¬ ("limit".data ++ ['=']) <:+: productsApi.getProductsQueryChars p) ∧
     (p.search = none → ¬ ("search".data ++ ['=']) <:+: productsApi.getProductsQueryChars p) ∧
     (p.category = none → ¬ ("category".data ++ ['=']) <:+: productsApi.getProductsQueryChars p) ∧
     (p.status = none → ¬ ("status".data ++ ['=']) <:+: productsApi.getProductsQueryChars p) ∧
     (p.sortBy = none → ¬ ("sortBy".data ++ ['=']) <:+: productsApi.getProductsQueryChars p) ∧
     (p.sortOrder = none → ¬ ("sortOrder".data ++ ['=']) <:+: productsApi.getProductsQueryChars p)) ∧
    ((q.page = none → ¬ ("page".data ++ ['=']) <:+: ordersApi.getOrdersQueryChars q) ∧
     (q.limit = none → ¬ ("limit".data ++ ['=']) <:+: ordersApi.getOrdersQueryChars q) ∧
     (q.status = none → ¬ ("status".data ++ ['=']) <:+: ordersApi.getOrdersQueryChars q) ∧
     (q.search = none → ¬ ("search".data ++ ['=']) <:+: ordersApi.getOrdersQueryChars q) ∧
     (q.sortBy = none → ¬ ("sortBy".data ++ ['=']) <:+: ordersApi.getOrdersQueryChars q) ∧
     (q.sortOrder = none → ¬ ("sortOrder".data ++ ['=']) <:+: ordersApi.getOrdersQueryChars q) ∧
     (q.startDate = none → ¬ ("startDate".data ++ ['=']) <:+: ordersApi.getOrdersQueryChars q) ∧
     (q.endDate = none → ¬ ("endDate".data ++ ['=']) <:+: ordersApi.getOrdersQueryChars q)) ∧
    productsApi.getProductsEndpoint {} = "/api/admin/products" ∧
    ordersApi.getOrdersEndpoint {} = "/api/admin/orders" := by
  refine ⟨⟨?_, ?_, ?_, ?_, ?_, ?_, ?_⟩, ⟨?_, ?_, ?_, ?_, ?_, ?_, ?_, ?_⟩, rfl, rfl⟩ <;>
    intro hu <;>
    first
      | exact productsUnsetAbsent p _ (by decide) (fun kv hkv => by
          rcases getProductsPairs_key p kv hkv with h | h | h | h | h | h | h <;>
            first | exact absurd hu h.2 | (rw [h.1]; decide))
      | exact ordersUnsetAbsent q _ (by decide) (fun kv hkv => by
          rcases getOrdersPairs_key q kv hkv with h | h | h | h | h | h | h | h <;>
            first | exact absurd hu h.2 | (rw [h.1]; decide))

/-- Witness for C8: a parameter object with `limit` set and `page` unset
yields a query with no `page=` substring. -/
theorem claim_C8_witness :
    ({ limit := some 5 } : ProductsParams).page = none ∧
      ¬ ("page".data ++ ['=']) <:+:
        productsApi.getProductsQueryChars { limit := some 5 } :=
  ⟨rfl, (claim_C8_list_params_unset_absent { limit := some 5 } {}).1.1 rfl⟩

/-! ### Envelope-shape helpers -/

lemma toJsString_str (s : String) : (JsVal.str s).toJsString = s := by
  simp [JsVal.toJsString]

lemma jsTruthy_isSome {a : Option JsVal} (h : jsTruthy a = true) : a.isSome = true := by
  cases a with
  | none => simp [jsTruthy] at h
  | some v => rfl

lemma jsOr_isSome_right (a : Option JsVal) {b : Option JsVal} (hb : b.isSome = true) :
    (jsOr a b).isSome = true := by
  unfold jsOr
  by_cases h : jsTruthy a
  · rw [if_pos h]; exact jsTruthy_isSome h
  · rw [if_neg h]; exact hb

lemma catchEnvelope_shape (e : JsError) : isFailureWithMessage (catchEnvelope e) :=
  ⟨rfl, rfl⟩

lemma apiRequest_shape (w : World) (t : Transport) :
    isSuccessWithData (apiRequest w t).2 ∨ isFailureWithMessage (apiRequest w t).2 := by
  rcases t with e | ⟨status, body⟩
  · exact Or.inr (catchEnvelope_shape e)
  · rcases body with j | m
    · cases hs : statusOk status
      · rcases hm : j.getField "message" with e | m
        · simp only [apiRequest, hs, hm, Bool.false_eq_true, if_false]
          exact Or.inr (catchEnvelope_shape e)
        · rcases he : j.getField "error" with e | er
          · simp only [apiRequest, hs, hm, he, Bool.false_eq_true, if_false]
            exact Or.inr (catchEnvelope_shape e)
          · rcases hes : j.getField "errors" with e | ers
            · simp only [apiRequest, hs, hm, he, hes, Bool.false_eq_true, if_false]
              exact Or.inr (catchEnvelope_shape e)
            · simp only [apiRequest, hs, hm, he, hes, Bool.false_eq_true, if_false]
              exact Or.inr ⟨rfl, jsOr_isSome_right m (jsOr_isSome_right er rfl)⟩
      · rcases hd : j.getField "data" with e | d
        · simp only [apiRequest, hs, hd, if_true]
          exact Or.inr (catchEnvelope_shape e)
        · rcases hm : j.getField "message" with e | m
          · simp only [apiRequest, hs, hd, hm, if_true]
            exact Or.inr (catchEnvelope_shape e)
          · simp only [apiRequest, hs, hd, hm, if_true]
            exact Or.inl ⟨rfl, jsOr_isSome_right d rfl⟩
    · exact Or.inr (catchEnvelope_shape ⟨true, m⟩)

lemma loginFailureResult_shape (w : World) (j : JsVal) :
    isFailureWithMessage (adminAuthApi.loginFailureResult w j).2 := by
  rcases hm : j.getField "message" with e | m
  · simp only [adminAuthApi.loginFailureResult, hm]
    exact catchEnvelope_shape e
  · rcases he : j.getField "error" with e | er
    · simp only [adminAuthApi.loginFailureResult, hm, he]
      exact catchEnvelope_shape e
    · simp only [adminAuthApi.loginFailureResult, hm, he]
      exact ⟨rfl, jsOr_isSome_right m rfl⟩

lemma login_shape (w : World) (t : Transport) :
    (adminAuthApi.login w t).2.success = true ∨
      isFailureWithMessage (adminAuthApi.login w t).2 := by
  rcases t with e | ⟨status, body⟩
  · exact Or.inr (catchEnvelope_shape e)
  · rcases body with j | m
    · cases hs : statusOk status
      · simp only [adminAuthApi.login, hs, Bool.false_eq_true, if_false]
        exact Or.inr (loginFailureResult_shape w j)
      · rcases hsucc : j.getField "success" with e | succ
        · simp only [adminAuthApi.login, hs, hsucc, if_true]
          exact Or.inr (catchEnvelope_shape e)
        · cases ht : jsTruthy succ
          · simp only [adminAuthApi.login, hs, hsucc, ht, Bool.false_eq_true, if_true, if_false]
            exact Or.inr (loginFailureResult_shape w j)
          · rcases hd : j.getField "data" with e | dd
            · simp only [adminAuthApi.login, hs, hsucc, ht, hd, if_true]
              exact Or.inr (catchEnvelope_shape e)
            · cases htok : jsTruthy (jsGetOpt dd "token")
              · rcases hm : j.getField "message" with e | m
                · simp only [adminAuthApi.login, hs, hsucc, ht, hd, htok, hm,
                    Bool.false_eq_true, if_true, if_false]
                  exact Or.inr (catchEnvelope_shape e)
                · simp only [adminAuthApi.login, hs, hsucc, ht, hd, htok, hm,
                    Bool.false_eq_true, if_true, if_false]
                  exact Or.inl trivial
              · rcases ha : jsGet dd "admin" with e | admin
                · simp only [adminAuthApi.login, hs, hsucc, ht, hd, htok, ha, if_true]
                  exact Or.inr (catchEnvelope_shape e)
                · rcases he : jsGet admin "email" with e | em
                  · simp only [adminAuthApi.login, hs, hsucc, ht, hd, htok, ha, he, if_true]
                    exact Or.inr (catchEnvelope_shape e)
                  · rcases hm : j.getField "message" with e | m
                    · simp only [adminAuthApi.login, hs, hsucc, ht, hd, htok, ha, he, hm, if_true]
                      exact Or.inr (catchEnvelope_shape e)
                    · simp only [adminAuthApi.login, hs, hsucc, ht, hd, htok, ha, he, hm, if_true]
                      exact Or.inl trivial
    · exact Or.inr (catchEnvelope_shape ⟨true, m⟩)

lemma uploadRequest_shape (w : World) (t : Transport) :
    (uploadApi.uploadRequest w t).2.success = true ∨
      isFailureWithMessage (uploadApi.uploadRequest w t).2 := by
  rcases t with e | ⟨status, body⟩
  · exact Or.inr (catchEnvelope_shape e)
  · rcases body with j | m
    · cases hs : statusOk status
      · rcases hm : j.getField "message" with e | m
        · simp only [uploadApi.uploadRequest, hs, hm, Bool.false_eq_true, if_false]
          exact Or.inr (catchEnvelope_shape e)
        · rcases he : j.getField "error" with e | er
          · simp only [uploadApi.uploadRequest, hs, hm, he, Bool.false_eq_true, if_false]
            exact Or.inr (catchEnvelope_shape e)
          · simp only [uploadApi.uploadRequest, hs, hm, he, Bool.false_eq_true, if_false]
            exact Or.inr ⟨rfl, jsOr_isSome_right m rfl⟩
      · rcases hd : j.getField "data" with e | dd
        · simp only [uploadApi.uploadRequest, hs, hd, if_true]
          exact Or.inr (catchEnvelope_shape e)
        · rcases hm : j.getField "message" with e | m
          · simp only [uploadApi.uploadRequest, hs, hd, hm, if_true]
            exact Or.inr (catchEnvelope_shape e)
          · simp only [uploadApi.uploadRequest, hs, hd, hm, if_true]
            exact Or.inl trivial
    · exact Or.inr (catchEnvelope_shape ⟨true, m⟩)

lemma request401_clears (w : World) (j : JsVal) :
    (apiRequest w (.resp 401 (.json j))).1 = ⟨⟨none, none⟩, some "/login"⟩ ∧
    (apiRequest w (.resp 401 (.json j))).2.success = false := by
  have hs : statusOk 401 = false := rfl
  rcases hm : j.getField "message" with e | m
  · simp only [apiRequest, hs, hm, Bool.false_eq_true, if_false]
    exact ⟨by trivial, by trivial⟩
  · rcases he : j.getField "error" with e | er
    · simp only [apiRequest, hs, hm, he, Bool.false_eq_true, if_false]
      exact ⟨by trivial, by trivial⟩
    · rcases hes : j.getField "errors" with e | ers
      · simp only [apiRequest, hs, hm, he, hes, Bool.false_eq_true, if_false]
        exact ⟨by trivial, by trivial⟩
      · simp only [apiRequest, hs, hm, he, hes, Bool.false_eq_true, if_false]
        exact ⟨by trivial, by trivial⟩

lemma upload401_clears (w : World) (j : JsVal) :
    (uploadApi.uploadRequest w (.resp 401 (.json j))).1 = ⟨⟨none, none⟩, some "/login"⟩ ∧
    (uploadApi.uploadRequest w (.resp 401 (.json j))).2.success = false := by
  have hs : statusOk 401 = false := rfl
  rcases hm : j.getField "message" with e | m
  · simp only [uploadApi.uploadRequest, hs, hm, Bool.false_eq_true, if_false]
    exact ⟨by trivial, by trivial⟩
  · rcases he : j.getField "error" with e | er
    · simp only [uploadApi.uploadRequest, hs, hm, he, Bool.false_eq_true, if_false]
      exact ⟨by trivial, by trivial⟩
    · simp only [uploadApi.uploadRequest, hs, hm, he, Bool.false_eq_true, if_false]
      exact ⟨by trivial, by trivial⟩

/-! ### Claim theorems -/

/-- **C1** (amended) — No operation ever throws: every call resolves to an
envelope that is either success-flagged or failure-with-message, and never
both.  The request executor's success envelopes always carry data, but
`login` and the upload operations can return a success envelope with no
`data` field, and `logout`'s success envelope never has one, so
"success-with-data or failure-with-message" does not hold verbatim for
every operation. -/
theorem claim_C1_envelope_exactly_one (w : World) (t : Transport) :
    (isSuccessWithData (apiRequest w t).2 ∨ isFailureWithMessage (apiRequest w t).2) ∧
    ¬ (isSuccessWithData (apiRequest w t).2 ∧ isFailureWithMessage (apiRequest w t).2) ∧
    ((adminAuthApi.login w t).2.success = true ∨
      isFailureWithMessage (adminAuthApi.login w t).2) ∧
    ((uploadApi.uploadImage w t).2.success = true ∨
      isFailureWithMessage (uploadApi.uploadImage w t).2) ∧
    ((uploadApi.uploadImages w t).2.success = true ∨
      isFailureWithMessage (uploadApi.uploadImages w t).2) ∧
    (adminAuthApi.logout w).2.success = true := by
  refine ⟨apiRequest_shape w t, ?_, login_shape w t, uploadRequest_shape w t,
    uploadRequest_shape w t, rfl⟩
  rintro ⟨⟨hs, -⟩, hf, -⟩
  rw [hs] at hf
  exact absurd hf (by decide)

/-- Witness for C1 at a concrete successful call. -/
theorem claim_C1_witness :
    isSuccessWithData
        (apiRequest ⟨⟨none, none⟩, none⟩ (.resp 200 (.json (.obj [("data", .num 1)])))).2 ∨
      isFailureWithMessage
        (apiRequest ⟨⟨none, none⟩, none⟩ (.resp 200 (.json (.obj [("data", .num 1)])))).2 :=
  (claim_C1_envelope_exactly_one ⟨⟨none, none⟩, none⟩
    (.resp 200 (.json (.obj [("data", .num 1)])))).1

/-- Counterexample to C1 as stated: `logout` returns a success envelope
with no data payload, so its envelope is neither success-with-data nor
failure-with-message. -/
theorem claim_C1_counterexample :
    (adminAuthApi.logout ⟨⟨some "t", some "e"⟩, none⟩).2.success = true ∧
    (adminAuthApi.logout ⟨⟨some "t", some "e"⟩, none⟩).2.data = none ∧
    ¬ isSuccessWithData (adminAuthApi.logout ⟨⟨some "t", some "e"⟩, none⟩).2 ∧
    ¬ isFailureWithMessage (adminAuthApi.logout ⟨⟨some "t", some "e"⟩, none⟩).2 := by
  refine ⟨rfl, rfl, ?_, ?_⟩
  · rintro ⟨-, hd⟩
    exact absurd hd (by decide)
  · rintro ⟨hs, -⟩
    exact absurd hs (by decide)

/-- **C2** (amended) — A 401 response *whose body parses as JSON* makes the
request executor and both upload operations clear both storage entries and
set the redirect to the login route before returning a failure envelope.
(A 401 whose body fails to parse skips the clearing: the parse exception
reaches the `catch` first — see the counterexample.) -/
theorem claim_C2_401_clears_session (w : World) (j : JsVal) :
    (apiRequest w (.resp 401 (.json j))).1 = ⟨⟨none, none⟩, some "/login"⟩ ∧
    (apiRequest w (.resp 401 (.json j))).2.success = false ∧
    (uploadApi.uploadImage w (.resp 401 (.json j))).1 = ⟨⟨none, none⟩, some "/login"⟩ ∧
    (uploadApi.uploadImage w (.resp 401 (.json j))).2.success = false ∧
    (uploadApi.uploadImages w (.resp 401 (.json j))).1 = ⟨⟨none, none⟩, some "/login"⟩ ∧
    (uploadApi.uploadImages w (.resp 401 (.json j))).2.success = false :=
  ⟨(request401_clears w j).1, (request401_clears w j).2,
   (upload401_clears w j).1, (upload401_clears w j).2,
   (upload401_clears w j).1, (upload401_clears w j).2⟩

/-- Counterexample to C2 as stated: a 401 response with an unparseable body
leaves the token in storage and triggers no redirect, because
`response.json()` throws before the 401 branch runs. -/
theorem claim_C2_counterexample :
    (apiRequest ⟨⟨some "tok", some "e@x"⟩, none⟩
        (.resp 401 (.malformed "Unexpected end of JSON input"))).1 =
      ⟨⟨some "tok", some "e@x"⟩, none⟩ ∧
    (apiRequest ⟨⟨some "tok", some "e@x"⟩, none⟩
        (.resp 401 (.malformed "Unexpected end of JSON input"))).1.storage.adminToken ≠ none ∧
    (apiRequest ⟨⟨some "tok", some "e@x"⟩, none⟩
        (.resp 401 (.malformed "Unexpected end of JSON input"))).1.redirect = none := by
  refine ⟨rfl, ?_, rfl⟩
  intro h
  exact absurd h (by decide)

/-- **C3** (amended) — On transport failure every operation returns a
failure envelope with the world unchanged; the envelope's `error` field is
the fixed string `'Network error'`, but its `message` echoes the thrown
error's own message whenever the thrown value is an `Error` instance (as
browser `fetch` rejections are), collapsing to `'Network error'` only for
non-`Error` thrown values — so callers *can* distinguish network-error
subtypes through `message`. -/
theorem claim_C3_transport_failure_envelope (w : World) (e : JsError) :
    (apiRequest w (.fail e)).1 = w ∧
    (apiRequest w (.fail e)).2.success = false ∧
    (apiRequest w (.fail e)).2.error = some (.str "Network error") ∧
    (apiRequest w (.fail e)).2.message =
      some (.str (if e.isErrorInstance then e.message else "Network error")) ∧
    (adminAuthApi.login w (.fail e)).2 = (apiRequest w (.fail e)).2 ∧
    (uploadApi.uploadImage w (.fail e)).2 = (apiRequest w (.fail e)).2 ∧
    (adminAuthApi.login w (.fail e)).1 = w ∧
    (uploadApi.uploadImage w (.fail e)).1 = w :=
  ⟨rfl, rfl, rfl, rfl, rfl, rfl, rfl, rfl⟩

/-- Counterexample to C3 as stated: a transport failure whose thrown
`TypeError` carries the message `"Failed to fetch"` yields an envelope
whose `message` is that string, not the fixed `"Network error"`. -/
theorem claim_C3_counterexample :
    (apiRequest ⟨⟨none, none⟩, none⟩ (.fail ⟨true, "Failed to fetch"⟩)).2.message =
      some (.str "Failed to fetch") ∧
    (apiRequest ⟨⟨none, none⟩, none⟩ (.fail ⟨true, "Failed to fetch"⟩)).2.message ≠
      some (.str "Network error") := by
  refine ⟨rfl, ?_⟩
  intro h
  simp [apiRequest, catchEnvelope] at h

/-- **C4** (amended) — A response whose body fails to parse as JSON is not
treated as an empty object: the parse exception reaches the generic
`catch`, so the executor returns the network-error-shaped failure envelope
echoing the parse error's message, with the world unchanged (the 401 side
effects are skipped as well). -/
theorem claim_C4_unparseable_body (w : World) (s : Nat) (m : String) :
    apiRequest w (.resp s (.malformed m)) =
      (w, { success := false, message := some (.str m), error := some (.str "Network error") }) :=
  rfl

/-- Counterexample to C4 as stated: at status 500, an unparseable body does
not produce the envelope an empty JSON body would produce — the messages
differ (`"Unexpected token"` vs `"Request failed"`) and the `error` field
is populated rather than absent. -/
theorem claim_C4_counterexample :
    (apiRequest ⟨⟨none, none⟩, none⟩ (.resp 500 (.malformed "Unexpected token"))).2.message =
      some (.str "Unexpected token") ∧
    (apiRequest ⟨⟨none, none⟩, none⟩ (.resp 500 (.json (.obj [])))).2.message =
      some (.str "Request failed") ∧
    (apiRequest ⟨⟨none, none⟩, none⟩ (.resp 500 (.malformed "Unexpected token"))).2.message ≠
      (apiRequest ⟨⟨none, none⟩, none⟩ (.resp 500 (.json (.obj [])))).2.message ∧
    (apiRequest ⟨⟨none, none⟩, none⟩ (.resp 500 (.malformed "Unexpected token"))).2.error =
      some (.str "Network error") ∧
    (apiRequest ⟨⟨none, none⟩, none⟩ (.resp 500 (.json (.obj [])))).2.error = none := by
  refine ⟨rfl, rfl, ?_, rfl, rfl⟩
  intro h
  simp [apiRequest, catchEnvelope, jsOr, jsTruthy, JsVal.getField, statusOk] at h

/-- **C5** (amended) — On a 2xx response whose body parses, the executor
returns a success envelope whose payload is the body's `data` field when
that field is present *and truthy*, and the whole parsed body otherwise —
presence alone does not suffice, because the source tests `data.data ||
data` by truthiness. -/
theorem claim_C5_success_payload (w : World) (s : Nat) (j : JsVal) (d m : Option JsVal)
    (hok : statusOk s = true)
    (hd : j.getField "data" = .ok d)
    (hm : j.getField "message" = .ok m) :
    (apiRequest w (.resp s (.json j))).1 = w ∧
    (apiRequest w (.resp s (.json j))).2 =
      { success := true, data := if jsTruthy d then d else some j, message := m } := by
  simp only [apiRequest, hok, if_true, hd, hm, jsOr]
  exact ⟨by trivial, by trivial⟩

/-- Witness for C5: a 2xx body whose `data` field is the falsy `0` falls
back to the whole body. -/
theorem claim_C5_witness :
    statusOk 200 = true ∧
    (JsVal.obj [("data", .num 0)]).getField "data" = .ok (some (.num 0)) ∧
    (apiRequest ⟨⟨none, none⟩, none⟩ (.resp 200 (.json (.obj [("data", .num 0)])))).2 =
      { success := true
        data := if jsTruthy (some (.num 0)) then some (.num 0) else some (.obj [("data", .num 0)])
        message := none } :=
  ⟨rfl, rfl,
    (claim_C5_success_payload ⟨⟨none, none⟩, none⟩ 200 (.obj [("data", .num 0)])
      (some (.num 0)) none rfl rfl rfl).2⟩

/-- Counterexample to C5 as stated: the body `{"data": 0}` has a `data`
field present, yet the returned payload is the whole body, not `0`. -/
theorem claim_C5_counterexample :
    (JsVal.obj [("data", JsVal.num 0)]).getField "data" = .ok (some (.num 0)) ∧
    (apiRequest ⟨⟨none, none⟩, none⟩ (.resp 200 (.json (.obj [("data", .num 0)])))).2.data =
      some (.obj [("data", .num 0)]) ∧
    (apiRequest ⟨⟨none, none⟩, none⟩ (.resp 200 (.json (.obj [("data", .num 0)])))).2.data ≠
      some (.num 0) := by
  refine ⟨rfl, rfl, ?_⟩
  intro h
  simp [apiRequest, jsOr, jsTruthy, JsVal.truthy, JsVal.getField, statusOk] at h

lemma loginFailureResult_frame (w : World) (j : JsVal) :
    (adminAuthApi.loginFailureResult w j).1 = w ∧
    (adminAuthApi.loginFailureResult w j).2.success = false := by
  rcases hm : j.getField "message" with e | m
  · simp only [adminAuthApi.loginFailureResult, hm]
    exact ⟨by trivial, by trivial⟩
  · rcases he : j.getField "error" with e | er
    · simp only [adminAuthApi.loginFailureResult, hm, he]
      exact ⟨by trivial, by trivial⟩
    · simp only [adminAuthApi.loginFailureResult, hm, he]
      exact ⟨by trivial, by trivial⟩

/-- **C6** (amended) — `login` on a well-formed success response (2xx,
truthy `success`, truthy `data.token`, and an `admin.email` reachable
without throwing) persists the token and the admin's email together and
returns the success envelope; and on every error response (non-2xx or
falsy `success`), transport failure or unparseable body it returns a
failure envelope with storage untouched.  These cases are not exhaustive:
on a 2xx body with a truthy `data.token` but no reachable `admin.email`,
the token alone is persisted before the thrown access reaches the `catch`
— see the counterexample. -/
theorem claim_C6_login_persistence (w : World) (s : Nat) (j : JsVal) (e : JsError) (mm : String) :
    (∀ succ dd admin em m,
      statusOk s = true →
      j.getField "success" = .ok succ → jsTruthy succ = true →
      j.getField "data" = .ok dd →
      jsTruthy (jsGetOpt dd "token") = true →
      jsGet dd "admin" = .ok admin →
      jsGet admin "email" = .ok em →
      j.getField "message" = .ok m →
      adminAuthApi.login w (.resp s (.json j)) =
        ({ storage := { adminToken := some (jsToString (jsGetOpt dd "token")),
                        adminEmail := some (jsToString em) },
           redirect := w.redirect },
         { success := true, data := dd, message := m })) ∧
    (statusOk s = false →
      (adminAuthApi.login w (.resp s (.json j))).1 = w ∧
      (adminAuthApi.login w (.resp s (.json j))).2.success = false) ∧
    (∀ succ, statusOk s = true → j.getField "success" = .ok succ → jsTruthy succ = false →
      (adminAuthApi.login w (.resp s (.json j))).1 = w ∧
      (adminAuthApi.login w (.resp s (.json j))).2.success = false) ∧
    ((adminAuthApi.login w (.fail e)).1 = w ∧
     (adminAuthApi.login w (.fail e)).2.success = false) ∧
    ((adminAuthApi.login w (.resp s (.malformed mm))).1 = w ∧
     (adminAuthApi.login w (.resp s (.malformed mm))).2.success = false) := by
  refine ⟨?_, ?_, ?_, ⟨rfl, rfl⟩, ⟨rfl, rfl⟩⟩
  · intro succ dd admin em m hok hsucc ht hd htok ha he hm
    simp only [adminAuthApi.login, hok, if_true, hsucc, ht, hd, htok, ha, he, hm]
  · intro hok
    simp only [adminAuthApi.login, hok, Bool.false_eq_true, if_false]
    exact loginFailureResult_frame w j
  · intro succ hok hsucc ht
    simp only [adminAuthApi.login, hok, if_true, hsucc, ht, Bool.false_eq_true, if_false]
    exact loginFailureResult_frame w j

/-- Witness for C6 at a concrete well-formed login success. -/
theorem claim_C6_witness :
    jsToString (some (.str "tk")) = "tk" ∧
    jsToString (some (.str "a@b")) = "a@b" ∧
    adminAuthApi.login ⟨⟨none, none⟩, none⟩
        (.resp 200 (.json (.obj
          [("success", .bool true),
           ("data", .obj [("token", .str "tk"), ("admin", .obj [("email", .str "a@b")])]),
           ("message", .str "ok")]))) =
      ({ storage := { adminToken := some (jsToString (some (.str "tk"))),
                      adminEmail := some (jsToString (some (.str "a@b"))) },
         redirect := none },
       { success := true
         data := some (.obj [("token", .str "tk"), ("admin", .obj [("email", .str "a@b")])])
         message := some (.str "ok") }) :=
  ⟨by simp [jsToString, toJsString_str], by simp [jsToString, toJsString_str],
    (claim_C6_login_persistence ⟨⟨none, none⟩, none⟩ 200
        (.obj [("success", .bool true),
               ("data", .obj [("token", .str "tk"), ("admin", .obj [("email", .str "a@b")])]),
               ("message", .str "ok")]) ⟨true, "x"⟩ "x").1
      (some (.bool true))
      (some (.obj [("token", .str "tk"), ("admin", .obj [("email", .str "a@b")])]))
      (some (.obj [("email", .str "a@b")]))
      (some (.str "a@b"))
      (some (.str "ok"))
      rfl rfl rfl rfl rfl rfl rfl rfl⟩

/-- Counterexample to C6 as stated: a 2xx `success: true` body carrying a
token but no `admin` object stores the token alone (the email entry keeps
its old value) and then returns a **failure** envelope — a partial
credential write on a failure outcome. -/
theorem claim_C6_counterexample :
    (adminAuthApi.login ⟨⟨none, some "old@x"⟩, none⟩
        (.resp 200 (.json (.obj
          [("success", .bool true),
           ("data", .obj [("token", .str "t")])])))).1.storage.adminToken = some "t" ∧
    (adminAuthApi.login ⟨⟨none, some "old@x"⟩, none⟩
        (.resp 200 (.json (.obj
          [("success", .bool true),
           ("data", .obj [("token", .str "t")])])))).1.storage.adminEmail = some "old@x" ∧
    (adminAuthApi.login ⟨⟨none, some "old@x"⟩, none⟩
        (.resp 200 (.json (.obj
          [("success", .bool true),
           ("data", .obj [("token", .str "t")])])))).2.success = false := by
  refine ⟨?_, rfl, rfl⟩
  show some (jsToString (some (.str "t"))) = some "t"
  simp [jsToString, toJsString_str]

/-- **C7** (amended) — All operations except `login` target the build-mode
base URL (`PROD ? env-or-empty : env-or-localhost`, resolved once at
module load); `login` re-resolves its own base as env-or-localhost with no
production branch.  The two agree in non-production builds, and in any
build where the env value is set non-empty, but diverge in production
builds without it. -/
theorem claim_C7_base_url_resolution (c : BuildConfig) (endpoint : String) :
    apiRequestUrl c endpoint = API_URL c ++ endpoint ∧
    adminAuthApi.loginUrl c = adminAuthApi.loginBaseUrl c ++ "/api/admin/auth/login" ∧
    adminAuthApi.loginBaseUrl c = jsStrOr c.viteApiUrl "http://localhost:3000" ∧
    (c.prod = false → adminAuthApi.loginBaseUrl c = API_URL c) ∧
    (∀ v, c.viteApiUrl = some v → v ≠ "" → adminAuthApi.loginBaseUrl c = API_URL c) := by
  refine ⟨rfl, rfl, rfl, ?_, ?_⟩
  · intro h
    simp [adminAuthApi.loginBaseUrl, API_URL, h]
  · intro v hv hne
    cases hc : c.prod <;>
      simp [adminAuthApi.loginBaseUrl, API_URL, jsStrOr, hv, hne, hc]

/-- Witness for C7 in a non-production build. -/
theorem claim_C7_witness :
    (⟨false, none⟩ : BuildConfig).prod = false ∧
    adminAuthApi.loginBaseUrl ⟨false, none⟩ = API_URL ⟨false, none⟩ :=
  ⟨rfl, (claim_C7_base_url_resolution ⟨false, none⟩ "").2.2.2.1 rfl⟩

/-- Counterexample to C7 as stated: in a production build with no
configured env value, `login` targets the localhost fallback while every
other operation targets the empty (same-origin) base. -/
theorem claim_C7_counterexample :
    API_URL ⟨true, none⟩ = "" ∧
    adminAuthApi.loginBaseUrl ⟨true, none⟩ = "http://localhost:3000" ∧
    adminAuthApi.loginBaseUrl ⟨true, none⟩ ≠ API_URL ⟨true, none⟩ ∧
    adminAuthApi.loginUrl ⟨true, none⟩ ≠ API_URL ⟨true, none⟩ ++ "/api/admin/auth/login" := by
  refine ⟨rfl, rfl, ?_, ?_⟩ <;> decide

lemma login_token_stored (w : World) (s : Nat) (j : JsVal) (succ dd : Option JsVal)
    (hok : statusOk s = true)
    (hsucc : j.getField "success" = .ok succ) (ht : jsTruthy succ = true)
    (hd : j.getField "data" = .ok dd)
    (htok : jsTruthy (jsGetOpt dd "token") = true) :
    (adminAuthApi.login w (.resp s (.json j))).1.storage.adminToken =
      some (jsToString (jsGetOpt dd "token")) := by
  simp only [adminAuthApi.login, hok, if_true, hsucc, ht, hd, htok]
  repeat' split
  all_goals trivial

/-- **C9** (amended) — `isAuthenticated` is a pure predicate of storage:
true iff a *nonempty* token string is stored (localStorage truthiness), and
it consults no transport.  `logout` always returns `{ success: true }`,
leaves the session absent (so `isAuthenticated` is false afterwards), and
is idempotent, hence safe when already logged out.  After a login whose
2xx body carried a truthy `success` and a nonempty string token,
`isAuthenticated` is true — but a login can return a success envelope
without storing any token (see the counterexample), so "true immediately
after a successful Login" does not hold verbatim. -/
theorem claim_C9_session_predicate (w : World) :
    (adminAuthApi.isAuthenticated w = true ↔
      ∃ tk, w.storage.adminToken = some tk ∧ tk ≠ "") ∧
    (adminAuthApi.logout w).2 = { success := true } ∧
    adminAuthApi.isAuthenticated (adminAuthApi.logout w).1 = false ∧
    (adminAuthApi.logout (adminAuthApi.logout w).1).1 = (adminAuthApi.logout w).1 ∧
    (∀ s j succ dd tk,
      statusOk s = true →
      j.getField "success" = .ok succ → jsTruthy succ = true →
      j.getField "data" = .ok dd →
      jsGetOpt dd "token" = some (.str tk) → tk ≠ "" →
      adminAuthApi.isAuthenticated (adminAuthApi.login w (.resp s (.json j))).1 = true) := by
  refine ⟨?_, rfl, rfl, rfl, ?_⟩
  · rcases h : w.storage.adminToken with _ | tk <;>
      simp [adminAuthApi.isAuthenticated, jsStrTruthy, h, bne_iff_ne]
  · intro s j succ dd tk hok hsucc ht hd htok hne
    have htokT : jsTruthy (jsGetOpt dd "token") = true := by
      rw [htok]
      simp [jsTruthy, JsVal.truthy, bne_iff_ne, hne]
    have hst := login_token_stored w s j succ dd hok hsucc ht hd htokT
    unfold adminAuthApi.isAuthenticated
    rw [hst, htok]
    simp [jsStrTruthy, jsToString, toJsString_str, bne_iff_ne, hne]

/-- Witness for C9 at a concrete token-storing login. -/
theorem claim_C9_witness :
    adminAuthApi.isAuthenticated
      (adminAuthApi.login ⟨⟨none, none⟩, none⟩
        (.resp 200 (.json (.obj
          [("success", .bool true),
           ("data", .obj [("token", .str "tk"),
                          ("admin", .obj [("email", .str "a@b")])])])))).1 = true :=
  (claim_C9_session_predicate ⟨⟨none, none⟩, none⟩).2.2.2.2 200
    (.obj [("success", .bool true),
           ("data", .obj [("token", .str "tk"), ("admin", .obj [("email", .str "a@b")])])])
    (some (.bool true))
    (some (.obj [("token", .str "tk"), ("admin", .obj [("email", .str "a@b")])]))
    "tk" rfl rfl rfl rfl rfl (by decide)

/-- Counterexample to C9 as stated: a login answered 2xx with
`{"success": true}` and no token yields a success envelope, yet
`isAuthenticated` remains false because nothing was stored. -/
theorem claim_C9_counterexample :
    (adminAuthApi.login ⟨⟨none, none⟩, none⟩
        (.resp 200 (.json (.obj [("success", .bool true)])))).2.success = true ∧
    adminAuthApi.isAuthenticated
      (adminAuthApi.login ⟨⟨none, none⟩, none⟩
        (.resp 200 (.json (.obj [("success", .bool true)])))).1 = false :=
  ⟨rfl, rfl⟩

lemma apiRequest_non401_json_frame (w : World) (s : Nat) (j : JsVal)
    (hne : (s == 401) = false) :
    (apiRequest w (.resp s (.json j))).1 = w := by
  cases hok : statusOk s
  · simp only [apiRequest, hok, Bool.false_eq_true, if_false, hne]
    repeat' split
    all_goals trivial
  · simp only [apiRequest, hok, if_true]
    repeat' split
    all_goals trivial

lemma upload_non401_json_frame (w : World) (s : Nat) (j : JsVal)
    (hne : (s == 401) = false) :
    (uploadApi.uploadRequest w (.resp s (.json j))).1 = w := by
  cases hok : statusOk s
  · simp only [uploadApi.uploadRequest, hok, Bool.false_eq_true, if_false, hne]
    repeat' split
    all_goals trivial
  · simp only [uploadApi.uploadRequest, hok, if_true]
    repeat' split
    all_goals trivial

lemma login_storage_cases (w : World) (t : Transport) :
    (adminAuthApi.login w t).1.storage = w.storage ∨
    (∃ a, (adminAuthApi.login w t).1.storage = ⟨some a, w.storage.adminEmail⟩) ∨
    (∃ a b, (adminAuthApi.login w t).1.storage = ⟨some a, some b⟩) := by
  rcases t with e | ⟨status, body⟩
  · exact Or.inl rfl
  · rcases body with j | m
    · cases hs : statusOk status
      · left
        simp only [adminAuthApi.login, hs, Bool.false_eq_true, if_false]
        rw [(loginFailureResult_frame w j).1]
      · rcases hsucc : j.getField "success" with e | succ
        · left
          simp only [adminAuthApi.login, hs, if_true, hsucc]
        · cases ht : jsTruthy succ
          · left
            simp only [adminAuthApi.login, hs, if_true, hsucc, ht, Bool.false_eq_true, if_false]
            rw [(loginFailureResult_frame w j).1]
          · rcases hd : j.getField "data" with e | dd
            · left
              simp only [adminAuthApi.login, hs, if_true, hsucc, ht, hd]
            · cases htok : jsTruthy (jsGetOpt dd "token")
              · left
                simp only [adminAuthApi.login, hs, if_true, hsucc, ht, hd, htok,
                  Bool.false_eq_true, if_false]
                repeat' split
                all_goals trivial
              · rcases ha : jsGet dd "admin" with e | admin
                · right; left
                  refine ⟨jsToString (jsGetOpt dd "token"), ?_⟩
                  simp only [adminAuthApi.login, hs, if_true, hsucc, ht, hd, htok, ha]
                · rcases he : jsGet admin "email" with e | em
                  · right; left
                    refine ⟨jsToString (jsGetOpt dd "token"), ?_⟩
                    simp only [adminAuthApi.login, hs, if_true, hsucc, ht, hd, htok, ha, he]
                  · right; right
                    refine ⟨jsToString (jsGetOpt dd "token"), jsToString em, ?_⟩
                    simp only [adminAuthApi.login, hs, if_true, hsucc, ht, hd, htok, ha, he]
                    repeat' split
                    all_goals trivial
    · exact Or.inl rfl

/-- **C10** (amended) — Storage is written or cleared only by these paths:
a token-storing `login` success (both entries written together when the
`admin.email` access succeeds, the token *alone* when it throws — the
partial path the original claim omits), `logout` (both cleared), and the
401-with-parseable-body branch of the executor and uploads (both cleared);
transport failures, unparseable bodies, non-401 failures and all other
responses leave storage unchanged. -/
theorem claim_C10_storage_write_paths (w : World) (t : Transport) (s : Nat) (j : JsVal)
    (e : JsError) (m : String) :
    ((apiRequest w (.fail e)).1.storage = w.storage) ∧
    ((apiRequest w (.resp s (.malformed m))).1.storage = w.storage) ∧
    ((s == 401) = false → (apiRequest w (.resp s (.json j))).1.storage = w.storage) ∧
    ((apiRequest w (.resp 401 (.json j))).1.storage = ⟨none, none⟩) ∧
    ((uploadApi.uploadImage w (.fail e)).1.storage = w.storage) ∧
    ((uploadApi.uploadImage w (.resp s (.malformed m))).1.storage = w.storage) ∧
    ((s == 401) = false → (uploadApi.uploadImage w (.resp s (.json j))).1.storage = w.storage) ∧
    ((uploadApi.uploadImage w (.resp 401 (.json j))).1.storage = ⟨none, none⟩) ∧
    ((uploadApi.uploadImages w (.resp 401 (.json j))).1.storage = ⟨none, none⟩) ∧
    ((adminAuthApi.logout w).1.storage = ⟨none, none⟩) ∧
    ((adminAuthApi.login w t).1.storage = w.storage ∨
      (∃ a, (adminAuthApi.login w t).1.storage = ⟨some a, w.storage.adminEmail⟩) ∨
      (∃ a b, (adminAuthApi.login w t).1.storage = ⟨some a, some b⟩)) := by
  refine ⟨rfl, rfl,
    fun hne => congrArg World.storage (apiRequest_non401_json_frame w s j hne), ?_, rfl, rfl,
    fun hne => congrArg World.storage (upload_non401_json_frame w s j hne), ?_, ?_, rfl,
    login_storage_cases w t⟩
  · rw [(request401_clears w j).1]
  · show (uploadApi.uploadRequest w (.resp 401 (.json j))).1.storage = ⟨none, none⟩
    rw [(upload401_clears w j).1]
  · show (uploadApi.uploadRequest w (.resp 401 (.json j))).1.storage = ⟨none, none⟩
    rw [(upload401_clears w j).1]

/-- Witness for C10: a non-401 failure leaves storage unchanged. -/
theorem claim_C10_witness :
    ((500 == 401) = false) ∧
    (apiRequest ⟨⟨some "t", some "e"⟩, none⟩ (.resp 500 (.json (.obj [])))).1.storage =
      (⟨⟨some "t", some "e"⟩, none⟩ : World).storage :=
  ⟨rfl,
    (claim_C10_storage_write_paths ⟨⟨some "t", some "e"⟩, none⟩ (.fail ⟨true, "x"⟩) 500
      (.obj []) ⟨true, "x"⟩ "x").2.2.1 rfl⟩

/-- Counterexample to C10 as stated: a login run that stores the token and
then throws on the missing `admin` object changes exactly one storage
entry while returning a failure envelope — a write path outside the three
all-or-nothing paths of the claim. -/
theorem claim_C10_counterexample :
    (⟨⟨none, some "keep@x"⟩, none⟩ : World).storage.adminToken = none ∧
    (adminAuthApi.login ⟨⟨none, some "keep@x"⟩, none⟩
        (.resp 200 (.json (.obj
          [("success", .bool true),
           ("data", .obj [("token", .str "tk2")])])))).1.storage.adminToken = some "tk2" ∧
    (adminAuthApi.login ⟨⟨none, some "keep@x"⟩, none⟩
        (.resp 200 (.json (.obj
          [("success", .bool true),
           ("data", .obj [("token", .str "tk2")])])))).1.storage.adminEmail = some "keep@x" ∧
    (adminAuthApi.login ⟨⟨none, some "keep@x"⟩, none⟩
        (.resp 200 (.json (.obj
          [("success", .bool true),
           ("data", .obj [("token", .str "tk2")])])))).2.success = false := by
  refine ⟨rfl, ?_, rfl, rfl⟩
  show some (jsToString (some (.str "tk2"))) = some "tk2"
  simp [jsToString, toJsString_str]

/-- Serializer sanity check: set parameters appear in source order. -/
lemma getProductsQuery_sample :
    String.mk (productsApi.getProductsQueryChars
      { page := some 2, limit := some 10, status := some "active" }) =
      "page=2&limit=10&status=active" :=
  rfl

/-- Serializer sanity check: `=`, `&` and spaces in values are escaped, so
values can never fabricate an `X=` occurrence. -/
lemma getProductsQuery_encodes_reserved :
    String.mk (productsApi.getProductsQueryChars { search := some "a b=c&d" }) =
      "search=a+b%3Dc%26d" :=
  rfl
